import Mathlib

/-!
Verification of `hass_nabucasa/acme.py` (ACME certificate handling).

The module drives a single-domain DNS-01 ACME certificate lifecycle:
account bootstrap (`_create_client`), CSR generation (`_generate_csr`),
challenge orchestration (`_start_challenge` / `_finish_challenge`),
certificate inspection (`is_valid_certificate`, `get_expire_date`,
`get_common_name`), revocation and account deactivation
(`_revoke_certificate`, `_deactivate_account`) and the two public
operations `issue_certificate` and `remove_acme`.

Shallow embedding: the on-disk files are an explicit record of `Option`
fields, every external call (ACME protocol client, the NabuCasa DNS
challenge HTTP API, RSA key generation) is driven by an oracle
environment `ProtoEnv`, and each Python method becomes a Lean function
from state to `Except Err result`, also returning the successor state
and the list of externally observable events (network calls and file
unlinks) the run performed, in order.

Python semantics mirrored exactly where the claims depend on them:
  * `Path.unlink()` without `missing_ok` raises `FileNotFoundError`
    when the target does not exist;
  * attribute access on `None` (or on an object lacking the attribute)
    raises `AttributeError`, which is NOT an `acme.errors.Error` and is
    therefore not converted by the `except errors.Error` handlers;
  * `Path.write_bytes` / `write_text` create the file with the process
    default permissions; only an explicit `chmod` restricts the mode.

The `cloud_api` module is not part of the sources; its two calls are
modelled from the spec: both return an HTTP status, and the cleanup
call's failures are logged, not propagated (it never raises).
-/

namespace AcmeSpec

/-- Result of `urllib.parse.urlparse`: component 0 is the scheme and
component 1 is the netloc (host); the remaining components are not
consulted by the code and are collapsed into `rest`. -/
structure Url where
  scheme : String
  netloc : String
  rest : String
deriving DecidableEq, Repr

/-- An x509 certificate object as returned by
`x509.load_pem_x509_certificate` of the `cryptography` library: it
exposes `not_valid_after` (a timestamp, modelled as `Int`) and
`subject` (an `x509.Name`, modelled as oid/value pairs).  The type has
no `commonName` attribute; the common name is reachable only through
`subject.get_attributes_for_oid(NameOID.COMMON_NAME)`. -/
structure X509Certificate where
  not_valid_after : Int
  subject : List (String × String)
deriving DecidableEq, Repr

/-- A file on disk: its (parsed) content, and the permission mode of
the last explicit `chmod` applied to it (`none` means the file carries
the process default permissions from `write_bytes`/`write_text`). -/
structure FileRecord (α : Type) where
  content : α
  mode : Option Nat
deriving DecidableEq, Repr

/-- The part of `messages.RegistrationResource` the code consults: its
`uri`, parsed for the stored server origin comparison. -/
structure RegistrationResource where
  uri : Url
deriving DecidableEq, Repr

/-- The four files of the handler (`acme_account.pem`,
`remote_private.pem`, `remote_fullchain.pem`, `acme_reg.json`);
`none` means the file does not exist.  Key PEM contents are opaque and
identified by a `Nat`; the fullchain file stores the certificate it
parses to. -/
structure FileState where
  account_key : Option (FileRecord Nat)
  private_key : Option (FileRecord Nat)
  fullchain : Option (FileRecord X509Certificate)
  registration : Option (FileRecord RegistrationResource)
deriving DecidableEq, Repr

/-- One `messages.ChallengeBody` entry: its `typ` and the validation
token that `response_and_validation` would derive for it. -/
structure Challenge where
  typ : String
  validation : String
deriving DecidableEq, Repr

/-- One authorization of an order, with its challenge list. -/
structure Authorization where
  challenges : List Challenge
deriving DecidableEq, Repr

/-- An `OrderResource` as returned by `new_order`. -/
structure AcmeOrder where
  authorizations : List Authorization
deriving DecidableEq, Repr

/-- The errors a run can surface.  `acmeClientError`,
`acmeChallengeError` and `acmeNabuCasaError` are the module's own
exception classes; `fileNotFoundError` is the raw OS error of
`Path.unlink` on a missing file; `attributeError` is Python's
`AttributeError` (not caught by any `except errors.Error`). -/
inductive Err
  | acmeClientError
  | acmeChallengeError
  | acmeNabuCasaError
  | fileNotFoundError
  | attributeError
deriving DecidableEq, Repr

/-- Externally observable events of a run, in order: entry into the
client bootstrap `_create_client`, file unlinks, and every network
call (directory fetch, account registration, order creation, challenge
answer, poll-and-finalize, the DNS publish and cleanup HTTP calls,
certificate revocation, account deactivation). -/
inductive Event
  | createClient
  | unlinkRegistration
  | unlinkAccountKey
  | unlinkFullchain
  | unlinkPrivateKey
  | fetchDirectory
  | registerAccount
  | newOrder
  | answerChallenge
  | pollFinalize
  | publishTxt (token : String)
  | cleanupTxt (token : String)
  | revoke
  | deactivate
deriving DecidableEq, Repr

/-- Outcome of `ClientV2.revoke`: success, `errors.ConflictError`
(already revoked), or another `errors.Error`. -/
inductive RevokeOutcome
  | ok
  | conflict
  | err
deriving DecidableEq, Repr

/-- Oracle for everything outside the module: RSA key generation and
the responses of the ACME server and of the NabuCasa DNS API.  A
`none` / `false` value makes the corresponding library call raise
`errors.Error`. -/
structure ProtoEnv where
  fresh_account_key : Nat
  fresh_private_key : Nat
  directory_ok : Bool
  new_account : Option RegistrationResource
  new_order : Option AcmeOrder
  response_and_validation_ok : Bool
  answer_challenge_ok : Bool
  poll_and_finalize : Option X509Certificate
  publish_status : Nat
  revoke_outcome : RevokeOutcome
  deactivate_ok : Bool
deriving DecidableEq, Repr

/-- Configuration of the `AcmeHandler`: the parsed ACME directory
server URL, the domain and the contact email. -/
structure Config where
  acme_server : Url
  domain : String
  email : String
deriving DecidableEq, Repr

/-- Mutable state of one `AcmeHandler` instance: the files on disk,
whether `self._acme_client` is set (truthy), and the loaded account
JWK (`self._account_jwk`), identified by the key id it wraps. -/
structure AcmeState where
  files : FileState
  acme_client : Bool
  account_jwk : Option Nat
deriving DecidableEq, Repr

/-- In-memory `ChallengeHandler` record (the `response` member is
derived together with `validation` and never inspected separately, so
it is not carried). -/
structure ChallengeHandler where
  challenge : Challenge
  order : AcmeOrder
  validation : String
deriving DecidableEq, Repr

/-- The scan of `_start_challenge` over all authorizations and all
their challenges, keeping the LAST challenge of type `dns-01`
(`dns_challenge = challenge` reassigns on every match, without early
exit). -/
def find_dns_challenge (order : AcmeOrder) : Option Challenge :=
  order.authorizations.foldl
    (fun acc auth =>
      auth.challenges.foldl
        (fun acc2 ch => if ch.typ = "dns-01" then some ch else acc2) acc)
    none

/-- Embedding of `_generate_csr`: load the private key file if
present, else generate a fresh RSA key and `write_bytes` it (with NO
chmod).  The CSR bytes themselves are opaque — the outcome of the
order they are submitted to is determined by the environment — so only
the state effect is returned. -/
def generate_csr (env : ProtoEnv) (s : AcmeState) : AcmeState :=
  if s.files.private_key.isSome then
    s
  else
    { s with files := { s.files with
        private_key := some ⟨env.fresh_private_key, none⟩ } }

/-- Embedding of `_load_account_key`: load the account key file if
present, else generate a fresh RSA key, `write_bytes` it and `chmod`
it to `0o600`; either way `self._account_jwk` wraps the key. -/
def load_account_key (env : ProtoEnv) (s : AcmeState) : AcmeState :=
  match s.files.account_key with
  | some r => { s with account_jwk := some r.content }
  | none =>
      { s with
        files := { s.files with
          account_key := some ⟨env.fresh_account_key, some 0o600⟩ }
        account_jwk := some env.fresh_account_key }

/-- Embedding of `_create_client`.  Step 1: if a registration file
exists whose uri origin (scheme or netloc) differs from the configured
ACME server URL, unlink the registration file and then the account key
file (each `unlink` raising `FileNotFoundError` when its target is
absent).  Step 2: `_load_account_key`.  Step 3: with a registration
file still present, fetch the directory against the existing
registration and set `self._acme_client`, wrapping failures in
`AcmeClientError`.  Otherwise fetch the directory, set
`self._acme_client`, then register a new account — note the client is
set BEFORE `new_account` is called — and on success persist the
returned registration with `chmod 0o600`. -/
def create_client (cfg : Config) (env : ProtoEnv) (s : AcmeState) :
    Except Err Unit × AcmeState × List Event :=
  let step1 : Except Err (AcmeState × List Event) :=
    match s.files.registration with
    | some regRec =>
        if cfg.acme_server.scheme ≠ regRec.content.uri.scheme ∨
            cfg.acme_server.netloc ≠ regRec.content.uri.netloc then
          let s1 := { s with files := { s.files with registration := none } }
          match s1.files.account_key with
          | none => .error .fileNotFoundError
          | some _ =>
              .ok ({ s1 with files := { s1.files with account_key := none } },
                [Event.unlinkRegistration, Event.unlinkAccountKey])
        else .ok (s, [])
    | none => .ok (s, [])
  match step1 with
  | .error e =>
      (.error e, { s with files := { s.files with registration := none } },
        [Event.createClient, Event.unlinkRegistration])
  | .ok (s1, evs1) =>
      let s2 := load_account_key env s1
      if s2.files.registration.isSome then
        -- Load a exists registration
        if env.directory_ok then
          (.ok (), { s2 with acme_client := true },
            Event.createClient :: evs1 ++ [Event.fetchDirectory])
        else
          (.error .acmeClientError, s2,
            Event.createClient :: evs1 ++ [Event.fetchDirectory])
      else
        -- Create a new registration
        if env.directory_ok then
          let s3 := { s2 with acme_client := true }
          match env.new_account with
          | none =>
              (.error .acmeClientError, s3,
                Event.createClient :: evs1 ++
                  [Event.fetchDirectory, Event.registerAccount])
          | some regr =>
              (.ok (),
                { s3 with files := { s3.files with
                    registration := some ⟨regr, some 0o600⟩ } },
                Event.createClient :: evs1 ++
                  [Event.fetchDirectory, Event.registerAccount])
        else
          (.error .acmeClientError, s2,
            Event.createClient :: evs1 ++ [Event.fetchDirectory])

/-- Embedding of `_start_challenge`: submit a new order (failure
raises `AcmeChallengeError`), scan for the last `dns-01` challenge,
then call `response_and_validation` on it.  When the scan found no
`dns-01` challenge, `dns_challenge` is `None` and the attribute access
`dns_challenge.response_and_validation` raises `AttributeError`, which
the surrounding `except errors.Error` does not catch. -/
def start_challenge (env : ProtoEnv) (s : AcmeState) :
    Except Err ChallengeHandler × AcmeState × List Event :=
  match env.new_order with
  | none => (.error .acmeChallengeError, s, [Event.newOrder])
  | some order =>
      match find_dns_challenge order with
      | none => (.error .attributeError, s, [Event.newOrder])
      | some ch =>
          if env.response_and_validation_ok then
            (.ok ⟨ch, order, ch.validation⟩, s, [Event.newOrder])
          else
            (.error .acmeChallengeError, s, [Event.newOrder])

/-- Embedding of `_finish_challenge`: answer the challenge, then poll
and finalize (failures raise `AcmeChallengeError`); on success unlink
the old fullchain if it exists (guarded: no error when absent), write
the new fullchain and `chmod` it to `0o600`. -/
def finish_challenge (env : ProtoEnv) (handler : ChallengeHandler)
    (s : AcmeState) : Except Err Unit × AcmeState × List Event :=
  if env.answer_challenge_ok then
    match env.poll_and_finalize with
    | none =>
        (.error .acmeChallengeError, s,
          [Event.answerChallenge, Event.pollFinalize])
    | some cert =>
        let unlinkEvs :=
          if s.files.fullchain.isSome then [Event.unlinkFullchain] else []
        (.ok (),
          { s with files := { s.files with
              fullchain := some ⟨cert, some 0o600⟩ } },
          Event.answerChallenge :: Event.pollFinalize :: unlinkEvs)
  else
    (.error .acmeChallengeError, s, [Event.answerChallenge])

/-- Embedding of `_get_cert`: parse the fullchain file if it exists,
else `None`. -/
def get_cert (s : AcmeState) : Option X509Certificate :=
  s.files.fullchain.map (·.content)

/-- Embedding of `is_valid_certificate`: `False` with no certificate,
else `cert.not_valid_after > datetime.utcnow()` (strict comparison
against the current time `now`). -/
def is_valid_certificate (s : AcmeState) (now : Int) : Bool :=
  match get_cert s with
  | none => false
  | some cert => now < cert.not_valid_after

/-- Embedding of `get_expire_date`: `None` with no certificate, else
`cert.not_valid_after`. -/
def get_expire_date (s : AcmeState) : Option Int :=
  (get_cert s).map (·.not_valid_after)

/-- Embedding of `get_common_name`: `None` with no certificate;
otherwise the code evaluates `cert.commonName`, an attribute that
`x509.Certificate` does not define (the subject is exposed as
`cert.subject`), so the access raises `AttributeError`. -/
def get_common_name (s : AcmeState) : Except Err (Option String) :=
  match get_cert s with
  | none => .ok none
  | some _ => .error .attributeError

/-- Embedding of `_revoke_certificate`: with no fullchain file, log a
warning and return (no-op).  Otherwise call `revoke`; a
`ConflictError` is passed over, any other `errors.Error` raises
`AcmeClientError`.  Then unlink the fullchain (it exists) and unlink
the private key — the latter unguarded, raising `FileNotFoundError`
when the private key file is absent. -/
def revoke_certificate (env : ProtoEnv) (s : AcmeState) :
    Except Err Unit × AcmeState × List Event :=
  match s.files.fullchain with
  | none => (.ok (), s, [])
  | some _ =>
      match env.revoke_outcome with
      | .err => (.error .acmeClientError, s, [Event.revoke])
      | _ =>
          let s1 := { s with files := { s.files with fullchain := none } }
          match s1.files.private_key with
          | none =>
              (.error .fileNotFoundError, s1,
                [Event.revoke, Event.unlinkFullchain])
          | some _ =>
              (.ok (),
                { s1 with files := { s1.files with private_key := none } },
                [Event.revoke, Event.unlinkFullchain,
                  Event.unlinkPrivateKey])

/-- Embedding of `_deactivate_account`: with no registration file,
return (no-op).  Otherwise deactivate the registration (failure raises
`AcmeClientError`), then unlink the registration file (it exists) and
unlink the account key — the latter unguarded, raising
`FileNotFoundError` when the account key file is absent. -/
def deactivate_account (env : ProtoEnv) (s : AcmeState) :
    Except Err Unit × AcmeState × List Event :=
  match s.files.registration with
  | none => (.ok (), s, [])
  | some _ =>
      if env.deactivate_ok then
        let s1 := { s with files := { s.files with registration := none } }
        match s1.files.account_key with
        | none =>
            (.error .fileNotFoundError, s1,
              [Event.deactivate, Event.unlinkRegistration])
        | some _ =>
            (.ok (),
              { s1 with files := { s1.files with account_key := none } },
              [Event.deactivate, Event.unlinkRegistration,
                Event.unlinkAccountKey])
      else
        (.error .acmeClientError, s, [Event.deactivate])

/-- Embedding of `issue_certificate`: bootstrap the client when
`self._acme_client` is unset; generate the CSR; start the challenge;
publish the validation token to the NabuCasa DNS API; when the
response status is not 200, raise `AcmeNabuCasaError` — note this
happens BEFORE the `try`/`finally` block, so no cleanup call is made;
otherwise finish the challenge inside `try`, with the DNS cleanup call
in the `finally` block (the cleanup call is modelled from the spec:
its failures are logged, not propagated, so it never raises). -/
def issue_certificate (cfg : Config) (env : ProtoEnv) (s : AcmeState) :
    Except Err Unit × AcmeState × List Event :=
  match (if s.acme_client then (.ok (), s, ([] : List Event))
         else create_client cfg env s) with
  | (.error e, s1, evs1) => (.error e, s1, evs1)
  | (.ok _, s1, evs1) =>
      let s2 := generate_csr env s1
      match start_challenge env s2 with
      | (.error e, s3, evs3) => (.error e, s3, evs1 ++ evs3)
      | (.ok handler, s3, evs3) =>
          if env.publish_status ≠ 200 then
            (.error .acmeNabuCasaError, s3,
              evs1 ++ evs3 ++ [Event.publishTxt handler.validation])
          else
            match finish_challenge env handler s3 with
            | (r, s5, evs5) =>
                (r, s5,
                  evs1 ++ evs3 ++ [Event.publishTxt handler.validation] ++
                    evs5 ++ [Event.cleanupTxt handler.validation])

/-- Embedding of `remove_acme`: bootstrap the client when
`self._acme_client` is unset, then revoke the certificate, then
deactivate the account (each step aborting the sequence on error). -/
def remove_acme (cfg : Config) (env : ProtoEnv) (s : AcmeState) :
    Except Err Unit × AcmeState × List Event :=
  match (if s.acme_client then (.ok (), s, ([] : List Event))
         else create_client cfg env s) with
  | (.error e, s1, evs1) => (.error e, s1, evs1)
  | (.ok _, s1, evs1) =>
      match revoke_certificate env s1 with
      | (.error e, s2, evs2) => (.error e, s2, evs1 ++ evs2)
      | (.ok _, s2, evs2) =>
          match deactivate_account env s2 with
          | (r, s3, evs3) => (r, s3, evs1 ++ evs2 ++ evs3)

/-- The two public operations callable on one handler instance. -/
inductive Op
  | issue
  | remove
deriving DecidableEq, Repr

/-- Run one public operation. -/
def run_op (cfg : Config) (env : ProtoEnv) (op : Op) (s : AcmeState) :
    Except Err Unit × AcmeState × List Event :=
  match op with
  | .issue => issue_certificate cfg env s
  | .remove => remove_acme cfg env s

/-- Run a sequence of public operations on one handler instance, each
with its own environment, threading the state and concatenating the
event traces. -/
def run_seq (cfg : Config) : List (ProtoEnv × Op) → AcmeState →
    AcmeState × List Event
  | [], s => (s, [])
  | (env, op) :: rest, s =>
      let r := run_op cfg env op s
      let rec1 := run_seq cfg rest r.2.1
      (rec1.1, r.2.2 ++ rec1.2)

/-- The validity predicate exactly as the spec words it ("returns
false when no certificate file exists, false when the stored
certificate's not-valid-after timestamp is in the past, and true
otherwise"), written for comparison with `is_valid_certificate`. -/
def is_valid_claimed (s : AcmeState) (now : Int) : Bool :=
  match get_cert s with
  | none => false
  | some cert => !(cert.not_valid_after < now)

/-! Concrete fixtures for witnesses and counterexamples. -/

/-- A configured ACME directory server URL. -/
def url0 : Url := ⟨"https", "acme.example.com", "/directory"⟩

/-- A registration uri on the same origin as `url0`. -/
def regUri0 : Url := ⟨"https", "acme.example.com", "/acct/17"⟩

/-- A registration uri on a different origin (other host). -/
def regUriOld : Url := ⟨"https", "acme-old.example.com", "/acct/3"⟩

/-- A handler configuration. -/
def cfg0 : Config := ⟨url0, "abc.example.org", "user@example.org"⟩

/-- A dns-01 challenge with validation token `tok`. -/
def dnsCh : Challenge := ⟨"dns-01", "tok"⟩

/-- An http-01 challenge. -/
def httpCh : Challenge := ⟨"http-01", "tok2"⟩

/-- An order carrying one authorization with one dns-01 challenge. -/
def order0 : AcmeOrder := ⟨[⟨[httpCh, dnsCh]⟩]⟩

/-- An order whose only challenge is http-01 (no dns-01 anywhere). -/
def orderHttp : AcmeOrder := ⟨[⟨[httpCh]⟩]⟩

/-- A certificate expiring at time 1000. -/
def cert0 : X509Certificate := ⟨1000, [("CN", "abc.example.org")]⟩

/-- A fully cooperative environment: every external call succeeds and
the DNS publish returns HTTP 200. -/
def env0 : ProtoEnv :=
  { fresh_account_key := 1
    fresh_private_key := 2
    directory_ok := true
    new_account := some ⟨regUri0⟩
    new_order := some order0
    response_and_validation_ok := true
    answer_challenge_ok := true
    poll_and_finalize := some cert0
    publish_status := 200
    revoke_outcome := .ok
    deactivate_ok := true }

/-- Like `env0` but the DNS publish call answers HTTP 503. -/
def env503 : ProtoEnv := { env0 with publish_status := 503 }

/-- Like `env0` but the DNS publish call answers HTTP 201. -/
def env201 : ProtoEnv := { env0 with publish_status := 201 }

/-- Like `env0` but the DNS publish call answers HTTP 404. -/
def env404 : ProtoEnv := { env0 with publish_status := 404 }

/-- Like `env0` but the revoke call answers `ConflictError`. -/
def envConflict : ProtoEnv := { env0 with revoke_outcome := .conflict }

/-- Like `env0` but the new order has no dns-01 challenge. -/
def envHttp : ProtoEnv := { env0 with new_order := some orderHttp }

/-- A state with no files on disk and the client already created. -/
def s_ready : AcmeState := ⟨⟨none, none, none, none⟩, true, some 1⟩

/-- A state with no files on disk and no client yet. -/
def s_fresh : AcmeState := ⟨⟨none, none, none, none⟩, false, none⟩

/-- A state holding a fullchain but no private key file. -/
def s_cert_no_key : AcmeState :=
  ⟨⟨some ⟨1, some 0o600⟩, none, some ⟨cert0, some 0o600⟩, none⟩, true, some 1⟩

/-- A state holding a fullchain, a private key and a registration. -/
def s_full : AcmeState :=
  ⟨⟨some ⟨1, some 0o600⟩, some ⟨2, none⟩, some ⟨cert0, some 0o600⟩,
    some ⟨⟨regUri0⟩, some 0o600⟩⟩, true, some 1⟩

/-- A state whose registration's origin differs from `url0`. -/
def s_old_origin : AcmeState :=
  ⟨⟨some ⟨1, some 0o600⟩, none, none, some ⟨⟨regUriOld⟩, some 0o600⟩⟩,
    false, none⟩

/-- A state holding a certificate that expires exactly at time 0. -/
def s_boundary : AcmeState :=
  ⟨⟨none, none, some ⟨⟨0, [("CN", "abc.example.org")]⟩, some 0o600⟩, none⟩,
    false, none⟩

/-! Helper lemmas about the state and trace of individual steps. -/

theorem generate_csr_files (env : ProtoEnv) (s : AcmeState) :
    (generate_csr env s).files.fullchain = s.files.fullchain ∧
    (generate_csr env s).files.registration = s.files.registration ∧
    (generate_csr env s).files.account_key = s.files.account_key ∧
    (generate_csr env s).acme_client = s.acme_client := by
  unfold generate_csr
  split <;> exact ⟨rfl, rfl, rfl, rfl⟩

theorem start_challenge_state (env : ProtoEnv) (s : AcmeState) :
    (start_challenge env s).2.1 = s ∧
    (start_challenge env s).2.2 = [Event.newOrder] := by
  unfold start_challenge
  split
  · exact ⟨rfl, rfl⟩
  · split
    · exact ⟨rfl, rfl⟩
    · split
      · exact ⟨rfl, rfl⟩
      · exact ⟨rfl, rfl⟩

theorem start_challenge_ok (env : ProtoEnv) (s : AcmeState)
    (order : AcmeOrder) (ch : Challenge)
    (horder : env.new_order = some order)
    (hch : find_dns_challenge order = some ch)
    (hresp : env.response_and_validation_ok = true) :
    start_challenge env s =
      (.ok ⟨ch, order, ch.validation⟩, s, [Event.newOrder]) := by
  simp only [start_challenge, horder, hch, hresp, if_true]

/-- C7 claim, as stated: `is_valid_certificate` is false with no
certificate, false with `not_valid_after` in the past, and true
otherwise.  Refuted at the boundary: a certificate whose
`not_valid_after` equals the current time is not "in the past", so the
claim demands true, but the code's strict `>` comparison yields
false. -/
theorem C7_counterexample :
    is_valid_claimed s_boundary 0 = true ∧
    is_valid_certificate s_boundary 0 = false ∧
    get_cert s_boundary = some ⟨0, [("CN", "abc.example.org")]⟩ ∧
    ¬((0 : Int) < 0) := by
  refine ⟨rfl, rfl, rfl, by omega⟩

/-- C7 (amended): `is_valid_certificate` returns false when no
certificate file exists, and with a stored certificate it returns true
exactly when the certificate's not-valid-after timestamp is strictly
later than the current time (so it returns false both when the
timestamp is in the past and when it equals the current time). -/
theorem C7_validity_strict (s : AcmeState) (now : Int) :
    is_valid_certificate s now = true ↔
      ∃ cert, get_cert s = some cert ∧ now < cert.not_valid_after := by
  unfold is_valid_certificate
  rcases h : get_cert s with _ | cert <;> simp [h]

/-- C6: `get_common_name` returns `None` when no certificate file
exists; but whenever a certificate file exists the code evaluates
`cert.commonName`, an attribute `x509.Certificate` does not define, so
the call raises `AttributeError` instead of returning the common name
— contradicting its own docstring ("Return CommonName of
certificate"). -/
theorem C6_common_name_attribute_error (s : AcmeState) :
    (s.files.fullchain = none → get_common_name s = .ok none) ∧
    (∀ r, s.files.fullchain = some r →
      get_common_name s = .error .attributeError) := by
  constructor
  · intro h
    unfold get_common_name get_cert
    rw [h]
    rfl
  · intro r h
    unfold get_common_name get_cert
    rw [h]
    rfl

/-- C6 witness: concrete evaluations through the theorem. -/
theorem C6_witness :
    get_common_name s_fresh = .ok none ∧
    get_common_name s_full = .error .attributeError :=
  ⟨(C6_common_name_attribute_error s_fresh).1 rfl,
    (C6_common_name_attribute_error s_full).2 ⟨cert0, some 0o600⟩ rfl⟩

/-- C8 claim, as stated: the certificate private key is written with
owner-only permissions.  Refuted: creating the private key in
`_generate_csr` performs `write_bytes` with no `chmod`, leaving the
file at the process default mode (contrast the account key,
registration and fullchain writes, which are all chmod-ed to 0o600). -/
theorem C8_counterexample :
    s_fresh.files.private_key = none ∧
    (generate_csr env0 s_fresh).files.private_key =
      some ⟨env0.fresh_private_key, none⟩ ∧
    (some (⟨env0.fresh_private_key, none⟩ : FileRecord Nat)).map
      FileRecord.mode ≠ some (some 0o600) := by
  refine ⟨rfl, rfl, by decide⟩

/-- C8 (amended): whenever `_generate_csr` creates and persists the
certificate private key, the file is written with the process default
permissions — no owner-only chmod is applied to it. -/
theorem C8_private_key_written_without_chmod (env : ProtoEnv)
    (s : AcmeState) (h : s.files.private_key = none) :
    (generate_csr env s).files.private_key =
      some ⟨env.fresh_private_key, none⟩ := by
  unfold generate_csr
  rw [h]
  rfl

/-- C8 witness: concrete evaluation through the amended theorem. -/
theorem C8_witness :
    (generate_csr env0 s_fresh).files.private_key =
      some ⟨env0.fresh_private_key, none⟩ :=
  C8_private_key_written_without_chmod env0 s_fresh rfl

/-- C5 claim, as stated: every deletion during cleanup is a no-op when
the target is absent; in particular revocation with a fullchain but no
private-key file completes without a raw filesystem error.  Refuted:
`_revoke_certificate` unlinks the private key without an existence
guard, so that run raises `FileNotFoundError`. -/
theorem C5_counterexample :
    s_cert_no_key.files.fullchain.isSome = true ∧
    s_cert_no_key.files.private_key = none ∧
    env0.revoke_outcome = RevokeOutcome.ok ∧
    (revoke_certificate env0 s_cert_no_key).1 = .error .fileNotFoundError := by
  refine ⟨rfl, rfl, rfl, rfl⟩

/-- C5 (amended): the deletions guarded by existence checks are
no-ops when their target is absent — revocation with no fullchain file
and deactivation with no registration file return unchanged — but the
unguarded private-key unlink in revocation raises `FileNotFoundError`
when an existing fullchain is revoked while the private-key file is
absent. -/
theorem C5_guarded_deletions (env : ProtoEnv) (s : AcmeState) :
    (s.files.fullchain = none →
      revoke_certificate env s = (.ok (), s, [])) ∧
    (s.files.registration = none →
      deactivate_account env s = (.ok (), s, [])) ∧
    (∀ c, s.files.fullchain = some c → s.files.private_key = none →
      env.revoke_outcome ≠ .err →
      (revoke_certificate env s).1 = .error .fileNotFoundError) := by
  refine ⟨?_, ?_, ?_⟩
  · intro h
    unfold revoke_certificate
    rw [h]
  · intro h
    unfold deactivate_account
    rw [h]
  · intro c h hk hrv
    unfold revoke_certificate
    rw [h]
    rcases ho : env.revoke_outcome with _ | _ | _
    · simp only [ho, hk]
    · simp only [ho, hk]
    · exact absurd ho hrv

/-- C5 witness: concrete evaluations through the amended theorem. -/
theorem C5_witness :
    revoke_certificate env0 s_ready = (.ok (), s_ready, []) ∧
    deactivate_account env0 s_ready = (.ok (), s_ready, []) ∧
    (revoke_certificate env0 s_cert_no_key).1 = .error .fileNotFoundError :=
  ⟨(C5_guarded_deletions env0 s_ready).1 rfl,
    (C5_guarded_deletions env0 s_ready).2.1 rfl,
    (C5_guarded_deletions env0 s_cert_no_key).2.2 ⟨cert0, some 0o600⟩ rfl rfl
      (by decide)⟩

/-- C2: when order creation fails at the protocol level,
`_start_challenge` raises `AcmeChallengeError`; but when the order
succeeds and its authorizations contain no dns-01 challenge, the code
evaluates `None.response_and_validation(...)` and raises
`AttributeError` — not `AcmeChallengeError` — because `AttributeError`
is not an `acme.errors.Error`. -/
theorem C2_challenge_error_taxonomy (env : ProtoEnv) (s : AcmeState) :
    (env.new_order = none →
      (start_challenge env s).1 = .error .acmeChallengeError) ∧
    (∀ order, env.new_order = some order → find_dns_challenge order = none →
      (start_challenge env s).1 = .error .attributeError) := by
  constructor
  · intro h
    simp only [start_challenge, h]
  · intro order h hn
    simp only [start_challenge, h, hn]

/-- C2 witness: an order whose only challenge is http-01 makes
`_start_challenge` fail with `AttributeError`. -/
theorem C2_witness :
    (start_challenge envHttp s_ready).1 = .error .attributeError :=
  (C2_challenge_error_taxonomy envHttp s_ready).2 orderHttp rfl (by decide)

theorem finish_challenge_not_nabucasa (env : ProtoEnv)
    (handler : ChallengeHandler) (s : AcmeState) :
    (finish_challenge env handler s).1 ≠ .error .acmeNabuCasaError := by
  unfold finish_challenge
  split
  · split <;> simp
  · simp

/-- C1 claim, as stated: with the DNS publish call answering HTTP 503,
`issue_certificate` raises `AcmeNabuCasaError`, leaves the fullchain
untouched, and still invokes the DNS cleanup call.  Refuted: the raise
for a non-200 publish status happens BEFORE the `try`/`finally` block,
so the run's full event trace ends at the publish call and contains no
cleanup call at all. -/
theorem C1_counterexample :
    (issue_certificate cfg0 env503 s_ready).1 = .error .acmeNabuCasaError ∧
    (issue_certificate cfg0 env503 s_ready).2.1.files.fullchain = none ∧
    (issue_certificate cfg0 env503 s_ready).2.2 =
      [Event.newOrder, Event.publishTxt "tok"] := by
  refine ⟨rfl, rfl, rfl⟩

/-- C1 (amended): for every run of `issue_certificate` in which the
DNS-publish call returns a non-success HTTP status, the operation
raises `AcmeNabuCasaError` and no fullchain file is created or
altered, but the DNS-cleanup call is NOT invoked: the cleanup block
only wraps the finalization phase, which is entered after a successful
publish. -/
theorem C1_publish_failure_no_cleanup (cfg : Config) (env : ProtoEnv)
    (s : AcmeState) (order : AcmeOrder) (ch : Challenge)
    (hclient : s.acme_client = true)
    (horder : env.new_order = some order)
    (hch : find_dns_challenge order = some ch)
    (hresp : env.response_and_validation_ok = true)
    (hstatus : ¬(200 ≤ env.publish_status ∧ env.publish_status < 300)) :
    (issue_certificate cfg env s).1 = .error .acmeNabuCasaError ∧
    (issue_certificate cfg env s).2.1.files.fullchain = s.files.fullchain ∧
    ∀ t, Event.cleanupTxt t ∉ (issue_certificate cfg env s).2.2 := by
  have h200 : env.publish_status ≠ 200 := by
    intro h
    exact hstatus ⟨by omega, by omega⟩
  have hstart := start_challenge_ok env (generate_csr env s) order ch
    horder hch hresp
  have hred : issue_certificate cfg env s =
      (.error .acmeNabuCasaError, generate_csr env s,
        [Event.newOrder, Event.publishTxt ch.validation]) := by
    simp [issue_certificate, hclient, hstart, h200]
  refine ⟨?_, ?_, ?_⟩
  · rw [hred]
  · rw [hred]
    exact (generate_csr_files env s).1
  · intro t
    rw [hred]
    simp

/-- C1 witness: concrete run through the amended theorem with the
publish call answering 503. -/
theorem C1_witness :
    (issue_certificate cfg0 env503 s_ready).1 = .error .acmeNabuCasaError ∧
    (issue_certificate cfg0 env503 s_ready).2.1.files.fullchain =
      s_ready.files.fullchain ∧
    ∀ t, Event.cleanupTxt t ∉ (issue_certificate cfg0 env503 s_ready).2.2 :=
  C1_publish_failure_no_cleanup cfg0 env503 s_ready order0 dnsCh rfl rfl
    (by decide) rfl (by decide)

/-- C4 claim, as stated: publication is treated as success if and only
if the returned HTTP status is in the 2xx range.  Refuted: the code
tests `resp.status != 200`, so the 2xx status 201 also raises
`AcmeNabuCasaError`. -/
theorem C4_counterexample :
    (200 ≤ env201.publish_status ∧ env201.publish_status < 300) ∧
    (issue_certificate cfg0 env201 s_ready).1 = .error .acmeNabuCasaError := by
  exact ⟨by decide, rfl⟩

/-- C4 (amended): publication is treated as success if and only if the
DNS-publish call returns HTTP status exactly 200; for every run that
reaches the publish call, `issue_certificate` raises
`AcmeNabuCasaError` precisely when the status differs from 200 (a
status of 200 can only lead to success or to an `AcmeChallengeError`
from finalization). -/
theorem C4_publish_success_iff_200 (cfg : Config) (env : ProtoEnv)
    (s : AcmeState) (order : AcmeOrder) (ch : Challenge)
    (hclient : s.acme_client = true)
    (horder : env.new_order = some order)
    (hch : find_dns_challenge order = some ch)
    (hresp : env.response_and_validation_ok = true) :
    (issue_certificate cfg env s).1 = .error .acmeNabuCasaError ↔
      env.publish_status ≠ 200 := by
  have hstart := start_challenge_ok env (generate_csr env s) order ch
    horder hch hresp
  by_cases h200 : env.publish_status = 200
  · rcases hfin : finish_challenge env ⟨ch, order, ch.validation⟩
      (generate_csr env s) with ⟨r5, s5, e5⟩
    have hne := finish_challenge_not_nabucasa env ⟨ch, order, ch.validation⟩
      (generate_csr env s)
    rw [hfin] at hne
    simp [issue_certificate, hclient, hstart, h200, hfin, hne]
  · have hred : issue_certificate cfg env s =
        (.error .acmeNabuCasaError, generate_csr env s,
          [Event.newOrder, Event.publishTxt ch.validation]) := by
      simp [issue_certificate, hclient, hstart, h200]
    rw [hred]
    simp [h200]

/-- C4 witness: a publish status of 404 makes the concrete run raise
`AcmeNabuCasaError`. -/
theorem C4_witness :
    (issue_certificate cfg0 env404 s_ready).1 = .error .acmeNabuCasaError :=
  (C4_publish_success_iff_200 cfg0 env404 s_ready order0 dnsCh rfl rfl
    (by decide) rfl).mpr (by decide)

/-- C3: a stored registration whose uri origin (scheme+host) differs
from the configured ACME directory URL makes `_create_client` unlink
the registration file and the account key file — both of them, and
before any network step — and then run a fresh registration
round-trip, persisting the newly returned registration.  (The
hypothesis that the account key file exists covers all states the
program itself produces: the registration file is only ever written
after `_load_account_key` has ensured the account key.) -/
theorem C3_origin_mismatch_resets_both (cfg : Config) (env : ProtoEnv)
    (s : AcmeState) (regRec : FileRecord RegistrationResource)
    (accRec : FileRecord Nat) (regr : RegistrationResource)
    (hreg : s.files.registration = some regRec)
    (hacc : s.files.account_key = some accRec)
    (hmis : cfg.acme_server.scheme ≠ regRec.content.uri.scheme ∨
      cfg.acme_server.netloc ≠ regRec.content.uri.netloc)
    (hdir : env.directory_ok = true)
    (hnew : env.new_account = some regr) :
    (create_client cfg env s).1 = .ok () ∧
    (create_client cfg env s).2.1.files.registration =
      some ⟨regr, some 0o600⟩ ∧
    (create_client cfg env s).2.1.files.account_key =
      some ⟨env.fresh_account_key, some 0o600⟩ ∧
    (create_client cfg env s).2.2 =
      [Event.createClient, Event.unlinkRegistration, Event.unlinkAccountKey,
        Event.fetchDirectory, Event.registerAccount] := by
  obtain ⟨⟨fa, fp, fc, fr⟩, c, j⟩ := s
  simp only [AcmeState.files] at hreg hacc
  subst hreg hacc
  rcases hmis with h | h <;>
    simp [create_client, load_account_key, h, hdir, hnew]

/-- C3 witness: concrete run through the theorem on a state whose
registration points at another host. -/
theorem C3_witness :
    (create_client cfg0 env0 s_old_origin).1 = .ok () ∧
    (create_client cfg0 env0 s_old_origin).2.1.files.registration =
      some ⟨⟨regUri0⟩, some 0o600⟩ ∧
    (create_client cfg0 env0 s_old_origin).2.1.files.account_key =
      some ⟨env0.fresh_account_key, some 0o600⟩ ∧
    (create_client cfg0 env0 s_old_origin).2.2 =
      [Event.createClient, Event.unlinkRegistration, Event.unlinkAccountKey,
        Event.fetchDirectory, Event.registerAccount] :=
  C3_origin_mismatch_resets_both cfg0 env0 s_old_origin
    ⟨⟨regUriOld⟩, some 0o600⟩ ⟨1, some 0o600⟩ ⟨regUri0⟩ rfl rfl
    (by right; decide) rfl rfl

/-- C9: calling `remove_acme` with no certificate file and no
registration file completes without error and finishes again with no
certificate and no registration (whether the ACME client is already
cached or bootstrap runs first, with a cooperative server); and
revoking a certificate the server reports as already revoked
(`ConflictError`) is treated as success, not an error. -/
theorem C9_remove_noop_and_conflict (cfg : Config) (env : ProtoEnv) :
    (∀ (s : AcmeState) (regr : RegistrationResource),
      s.files.fullchain = none → s.files.registration = none →
      env.directory_ok = true → env.new_account = some regr →
      env.deactivate_ok = true →
      (remove_acme cfg env s).1 = .ok () ∧
      (remove_acme cfg env s).2.1.files.fullchain = none ∧
      (remove_acme cfg env s).2.1.files.registration = none) ∧
    (∀ (s : AcmeState) (c : FileRecord X509Certificate) (k : FileRecord Nat),
      s.files.fullchain = some c → s.files.private_key = some k →
      env.revoke_outcome = .conflict →
      (revoke_certificate env s).1 = .ok ()) := by
  constructor
  · intro s regr hfull hreg hdir hnew hdeact
    obtain ⟨⟨fa, fp, fc, fr⟩, c, j⟩ := s
    simp only [AcmeState.files, FileState.fullchain] at hfull
    simp only [AcmeState.files, FileState.registration] at hreg
    subst hfull hreg
    cases c
    · cases fa <;>
        simp [remove_acme, create_client, load_account_key,
          revoke_certificate, deactivate_account, hdir, hnew, hdeact]
    · simp [remove_acme, revoke_certificate, deactivate_account]
  · intro s c k hfull hk hconf
    obtain ⟨⟨fa, fp, fc, fr⟩, cl, j⟩ := s
    simp only [AcmeState.files, FileState.fullchain] at hfull
    simp only [AcmeState.files, FileState.private_key] at hk
    subst hfull hk
    simp [revoke_certificate, hconf]

/-- C9 witness: concrete runs through the theorem — a fresh handler
with no files completes `remove_acme`, and a conflict answer on revoke
is success. -/
theorem C9_witness :
    (remove_acme cfg0 env0 s_fresh).1 = .ok () ∧
    (revoke_certificate envConflict s_full).1 = .ok () :=
  ⟨((C9_remove_noop_and_conflict cfg0 env0).1 s_fresh ⟨regUri0⟩ rfl rfl rfl
      rfl rfl).1,
    (C9_remove_noop_and_conflict cfg0 envConflict).2 s_full
      ⟨cert0, some 0o600⟩ ⟨2, none⟩ rfl rfl rfl⟩

theorem finish_challenge_client (env : ProtoEnv)
    (handler : ChallengeHandler) (s : AcmeState) :
    (finish_challenge env handler s).2.1.acme_client = s.acme_client ∧
    Event.createClient ∉ (finish_challenge env handler s).2.2 := by
  unfold finish_challenge
  split
  · split
    · simp
    · constructor
      · rfl
      · split <;> simp
  · simp

theorem revoke_client (env : ProtoEnv) (s : AcmeState) :
    (revoke_certificate env s).2.1.acme_client = s.acme_client ∧
    Event.createClient ∉ (revoke_certificate env s).2.2 := by
  obtain ⟨⟨fa, fp, fc, fr⟩, c, j⟩ := s
  rcases hro : env.revoke_outcome with _ | _ | _ <;>
    cases fc <;> cases fp <;> simp [revoke_certificate, hro]

theorem deactivate_client (env : ProtoEnv) (s : AcmeState) :
    (deactivate_account env s).2.1.acme_client = s.acme_client ∧
    Event.createClient ∉ (deactivate_account env s).2.2 := by
  obtain ⟨⟨fa, fp, fc, fr⟩, c, j⟩ := s
  cases hd : env.deactivate_ok <;>
    cases fr <;> cases fa <;> simp [deactivate_account, hd]

theorem create_client_runs (cfg : Config) (env : ProtoEnv) (s : AcmeState) :
    Event.createClient ∈ (create_client cfg env s).2.2 := by
  obtain ⟨⟨fa, fp, fc, fr⟩, c, j⟩ := s
  cases fr with
  | none =>
      cases fa <;>
        cases hd : env.directory_ok <;>
        rcases hn : env.new_account with _ | regr <;>
        simp [create_client, load_account_key, hd, hn]
  | some regRec =>
      by_cases hm : cfg.acme_server.scheme ≠ regRec.content.uri.scheme ∨
          cfg.acme_server.netloc ≠ regRec.content.uri.netloc
      · cases fa <;>
          cases hd : env.directory_ok <;>
          rcases hn : env.new_account with _ | regr <;>
          simp [create_client, load_account_key, hm, hd, hn]
      · cases fa <;>
          cases hd : env.directory_ok <;>
          simp [create_client, load_account_key, hm, hd]

theorem run_op_cached (cfg : Config) (env : ProtoEnv) (op : Op)
    (s : AcmeState) (h : s.acme_client = true) :
    (run_op cfg env op s).2.1.acme_client = true ∧
    Event.createClient ∉ (run_op cfg env op s).2.2 := by
  cases op
  · have hg := generate_csr_files env s
    rcases hst : start_challenge env (generate_csr env s) with ⟨r3, s3, e3⟩
    have hs3 : s3 = generate_csr env s := by
      have h1 := (start_challenge_state env (generate_csr env s)).1
      rw [hst] at h1
      exact h1
    have he3 : e3 = [Event.newOrder] := by
      have h1 := (start_challenge_state env (generate_csr env s)).2
      rw [hst] at h1
      exact h1
    subst hs3 he3
    cases r3 with
    | error e =>
        simp [run_op, issue_certificate, h, hst, hg.2.2.2]
    | ok handler =>
        by_cases hp : env.publish_status = 200
        · rcases hf : finish_challenge env handler (generate_csr env s)
            with ⟨r5, s5, e5⟩
          have hfc := finish_challenge_client env handler (generate_csr env s)
          rw [hf] at hfc
          simp only [Prod.snd, Prod.fst] at hfc
          simp [run_op, issue_certificate, h, hst, hp, hf, hfc.1, hfc.2,
            hg.2.2.2]
        · simp [run_op, issue_certificate, h, hst, hp, hg.2.2.2]
  · rcases hrv : revoke_certificate env s with ⟨r2, s2, e2⟩
    have hrc := revoke_client env s
    rw [hrv] at hrc
    simp only [Prod.snd, Prod.fst] at hrc
    cases r2 with
    | error e =>
        simp [run_op, remove_acme, h, hrv, hrc.1, hrc.2]
    | ok u =>
        rcases hda : deactivate_account env s2 with ⟨r3, s3, e3⟩
        have hdc := deactivate_client env s2
        rw [hda] at hdc
        simp only [Prod.snd, Prod.fst] at hdc
        simp [run_op, remove_acme, h, hrv, hda, hrc.1, hrc.2, hdc.1, hdc.2]

theorem run_op_bootstrap (cfg : Config) (env : ProtoEnv) (op : Op)
    (s : AcmeState) (h : s.acme_client = false) :
    Event.createClient ∈ (run_op cfg env op s).2.2 := by
  rcases hcc : create_client cfg env s with ⟨r1, s1, e1⟩
  have hm := create_client_runs cfg env s
  rw [hcc] at hm
  cases op
  · cases r1 with
    | error e =>
        simpa [run_op, issue_certificate, h, hcc] using hm
    | ok u =>
        rcases hst : start_challenge env (generate_csr env s1) with ⟨r3, s3, e3⟩
        cases r3 with
        | error e =>
            simp [run_op, issue_certificate, h, hcc, hst, hm]
        | ok handler =>
            by_cases hp : env.publish_status = 200
            · rcases hf : finish_challenge env handler s3 with ⟨r5, s5, e5⟩
              simp [run_op, issue_certificate, h, hcc, hst, hp, hf, hm]
            · simp [run_op, issue_certificate, h, hcc, hst, hp, hm]
  · cases r1 with
    | error e =>
        simpa [run_op, remove_acme, h, hcc] using hm
    | ok u =>
        rcases hrv : revoke_certificate env s1 with ⟨r2, s2, e2⟩
        cases r2 with
        | error e =>
            simp [run_op, remove_acme, h, hcc, hrv, hm]
        | ok v =>
            rcases hda : deactivate_account env s2 with ⟨r3, s3, e3⟩
            simp [run_op, remove_acme, h, hcc, hrv, hda, hm]

/-- C10: on one handler instance, the client bootstrap
(`_create_client`, which contains the registration-origin check and
any registration) runs exactly when `self._acme_client` is unset: an
operation starting with no client performs the bootstrap, while from
any state whose client is set, every sequence of `issue_certificate` /
`remove_acme` calls keeps the client set and never re-enters
`_create_client` (hence never re-checks the registration's origin). -/
theorem C10_client_bootstrap_once (cfg : Config) :
    (∀ (env : ProtoEnv) (op : Op) (s : AcmeState), s.acme_client = false →
      Event.createClient ∈ (run_op cfg env op s).2.2) ∧
    (∀ (s : AcmeState), s.acme_client = true →
      ∀ ops : List (ProtoEnv × Op),
        (run_seq cfg ops s).1.acme_client = true ∧
        Event.createClient ∉ (run_seq cfg ops s).2) := by
  constructor
  · intro env op s h
    exact run_op_bootstrap cfg env op s h
  · intro s h ops
    induction ops generalizing s with
    | nil => exact ⟨h, by simp [run_seq]⟩
    | cons p rest ih =>
        obtain ⟨env, op⟩ := p
        have h1 := run_op_cached cfg env op s h
        have h2 := ih (run_op cfg env op s).2.1 h1.1
        constructor
        · simpa [run_seq] using h2.1
        · simp only [run_seq, List.mem_append, not_or]
          exact ⟨h1.2, h2.2⟩

/-- C10 witness: a fresh handler performs the bootstrap on its first
`issue_certificate`, while a handler with the client already created
never re-enters the bootstrap over a later issue-then-remove
sequence. -/
theorem C10_witness :
    Event.createClient ∈ (run_op cfg0 env0 Op.issue s_fresh).2.2 ∧
    Event.createClient ∉
      (run_seq cfg0 [(env0, Op.issue), (env0, Op.remove)] s_ready).2 :=
  ⟨(C10_client_bootstrap_once cfg0).1 env0 Op.issue s_fresh rfl,
    ((C10_client_bootstrap_once cfg0).2 s_ready rfl
      [(env0, Op.issue), (env0, Op.remove)]).2⟩

end AcmeSpec
